import Mathlib

/-!
Shallow embedding of `src/actions/worker/index.js` (an asset-compute worker
that signs renditions with C2PA provenance manifests) and proofs about it.

JavaScript values that the code inspects dynamically are modelled by the
`Json` type below; JavaScript truthiness, property access and
`Object.keys(...).length` are modelled by `jsTruthy`, `jsGet` and
`objectKeysLength`. External effects (subprocess execution, `JSON.parse`,
HTTP fetch, file reads/writes) are modelled as oracle parameters: the
function under verification is a pure function of its arguments and of the
oracle describing what the outside world would have answered. A thrown
JavaScript exception is an `Except.error`; `try`/`catch` is the
corresponding `match`.
-/

namespace HtxCai

/-- Model of a JavaScript/JSON value as manipulated by the worker. -/
inductive Json where
  | null
  | bool (b : Bool)
  | num (n : Int)
  | str (s : String)
  | arr (elems : List Json)
  | obj (fields : List (String × Json))
deriving Inhabited

/-- JavaScript truthiness of a `Json` value (`null`, `false`, `0` and the
empty string are falsy; every array and object is truthy). -/
def jsTruthy : Json → Bool
  | .null => false
  | .bool b => b
  | .num n => n != 0
  | .str s => s != ""
  | .arr _ => true
  | .obj _ => true

/-- JavaScript property access `v[k]`: `some` of the field value on an
object that has the key, `none` (undefined) otherwise. -/
def jsGet (j : Json) (k : String) : Option Json :=
  match j with
  | .obj fields => fields.lookup k
  | _ => none

/-- Model of `Object.keys(v).length` for the truthy values the code can
reach: the number of fields of an object, the length of an array or string,
and `0` for the remaining primitives. -/
def objectKeysLength : Json → Nat
  | .obj fields => fields.length
  | .arr elems => elems.length
  | .str s => s.length
  | _ => 0

/-- Model of JavaScript `String.prototype.trim`: drop leading and trailing
whitespace. -/
def jsTrim (s : String) : String :=
  String.mk (((s.data.dropWhile Char.isWhitespace).reverse.dropWhile Char.isWhitespace).reverse)

/-- Model of JavaScript `String.prototype.toUpperCase` (for the ASCII tier
names the code compares against). -/
def jsToUpperCase (s : String) : String :=
  String.mk (s.data.map Char.toUpper)

/-- JavaScript truthiness of an optional string field (`undefined`, `null`
and `""` are falsy). -/
def strTruthy : Option String → Bool
  | none => false
  | some s => s != ""

/-- JavaScript truthiness of an optional boolean field (`undefined` and
`null` are falsy). -/
def optBoolTruthy : Option Bool → Bool
  | some b => b
  | none => false

/-- The `c2paSignParams` instruction bag. Absent fields are `none`. -/
structure SignParams where
  clientSecret : Option String := none
  accessCode : Option String := none
  tier : Option String := none
  useInternalTooling : Option Bool := none
  cleanUpTmpFiles : Option Bool := none

/-- Constant `CLIENT_ID`. -/
def CLIENT_ID : String := "asset_compute_cai_integration"

/-- Constant `AUTH_GRANT_TYPE`. -/
def AUTH_GRANT_TYPE : String := "authorization_code"

/-- Constant `AUTH_STAGE_ENDPOINT`. -/
def AUTH_STAGE_ENDPOINT : String := "https://ims-na1-stg1.adobelogin.com"

/-- Constant `AUTH_PROD_ENDPOINT`. -/
def AUTH_PROD_ENDPOINT : String := "https://ims-na1.adobelogin.com"

/-- Constant `STAGE_TIER`. -/
def STAGE_TIER : String := "STAGE"

/-- Constant `PROD_TIER`. -/
def PROD_TIER : String := "PROD"

/-- `executeJsonOutputCommand`: run a command, capture stdout, JSON-parse
the trimmed stdout, and swallow every failure into a `null` result. The
subprocess is the oracle `exec` (`.error` models a spawn failure or
non-zero exit, `.ok s` models success with stdout `s`); `JSON.parse` is
the oracle `parse` (`.error` models a thrown parse exception). -/
def executeJsonOutputCommand (exec : String → Except Unit String)
    (parse : String → Except Unit Json) (command : String) : Json :=
  match exec command with
  | .error _ => Json.null
  | .ok stdout =>
    if stdout != "" then
      let trimmed := jsTrim stdout
      if trimmed != "" then
        match parse trimmed with
        | .ok j => j
        | .error _ => Json.null
      else Json.null
    else Json.null

/-- `buildExtractionCommand`: build the c2patool shell command string. Four
variants keyed on whether a parent asset is supplied and whether
`signParams.useInternalTooling` is truthy. -/
def buildExtractionCommand (fileToProcess jsonManifestPath : String)
    (parentAsset : Option String := none) (signParams : SignParams := {}) : String :=
  match parentAsset with
  | some parent =>
    if optBoolTruthy signParams.useInternalTooling then
      "adobe_c2patool add-manifest --input \"" ++ fileToProcess ++ "\" --embed --config \""
        ++ jsonManifestPath ++ "\" --force --output \"" ++ fileToProcess
        ++ "\" --parent \"" ++ parent ++ "\""
    else
      "c2patool \"" ++ fileToProcess ++ "\" --manifest \"" ++ jsonManifestPath
        ++ "\" -f -o \"" ++ fileToProcess ++ "\" -p \"" ++ parent ++ "\""
  | none =>
    if optBoolTruthy signParams.useInternalTooling then
      "adobe_c2patool add-manifest --input \"" ++ fileToProcess ++ "\" --embed --config \""
        ++ jsonManifestPath ++ "\" --force --output \"" ++ fileToProcess ++ "\""
    else
      "c2patool \"" ++ fileToProcess ++ "\" --manifest \"" ++ jsonManifestPath
        ++ "\" -f -o \"" ++ fileToProcess ++ "\""

/-- The HTTP response object handed back by `fetch`, with `body` the value
that `res.json()` resolves to. -/
structure HttpResponse where
  ok : Bool
  status : Nat
  statusText : String
  body : Json

/-- The distinct failures `exchangeServiceTokenForSignature` can throw. -/
inductive TokenExchangeError where
  | incompleteInfo
  | invalidTier (tier : String)
  | noResponse
  | credentialRejected
  | exchangeFailed (status : Nat) (statusText : String) (body : Json)

/-- The exact JavaScript `Error` message carried by each token-exchange
failure (the body of the generic failure is reported structurally rather
than through `JSON.stringify`). -/
def tokenExchangeErrorMessage : TokenExchangeError → String
  | .incompleteInfo => "Incomplete C2PA signing information"
  | .invalidTier t =>
    "Unable to exchange service token: " ++ t
      ++ " is not a valid tier (only stage or prod are supported)"
  | .noResponse => "No response from token exchange service"
  | .credentialRejected => "Unable to exchange service token, client_secret rejected"
  | .exchangeFailed status statusText _ =>
    "Unable to exchange service token: " ++ toString status ++ " " ++ statusText

/-- The guard `!signParams || !signParams.clientSecret || !signParams.accessCode
|| !signParams.tier` at the top of `exchangeServiceTokenForSignature`,
negated: all three required fields are truthy. -/
def signParamsComplete : Option SignParams → Bool
  | none => false
  | some p => strTruthy p.clientSecret && strTruthy p.accessCode && strTruthy p.tier

/-- Tier resolution from `exchangeServiceTokenForSignature`: upper-case the
tier and map `PROD`/`STAGE` to the matching login host, anything else to
`none` (the invalid-tier throw). -/
def resolveTierHost (tier : String) : Option String :=
  let t := jsToUpperCase tier
  if t = PROD_TIER then some AUTH_PROD_ENDPOINT
  else if t = STAGE_TIER then some AUTH_STAGE_ENDPOINT
  else none

/-- The condition `res.status === 400 && json && json.error ===
'invalid_client' && json.error_description === 'invalid client_secret
parameter'` distinguishing a rejected client secret. -/
def isInvalidClientSecretResponse (res : HttpResponse) : Bool :=
  res.status = 400 && jsTruthy res.body
    && (match jsGet res.body "error" with
        | some (.str e) => e = "invalid_client"
        | _ => false)
    && (match jsGet res.body "error_description" with
        | some (.str d) => d = "invalid client_secret parameter"
        | _ => false)

/-- `exchangeServiceTokenForSignature`: validate the sign params, pick the
tier endpoint, POST the form and interpret the response. The transport is
the oracle `net` (`none` models `fetch` resolving to no response object).
Returns the result (`.ok` carries `json.access_token`, possibly undefined)
together with `some url` exactly when the network request was issued. -/
def exchangeServiceTokenForSignature (signParams : Option SignParams)
    (net : Option HttpResponse) : Except TokenExchangeError (Option Json) × Option String :=
  if !signParamsComplete signParams then
    (.error .incompleteInfo, none)
  else
    let p := signParams.getD {}
    let tierRaw := p.tier.getD ""
    match resolveTierHost tierRaw with
    | none => (.error (.invalidTier tierRaw), none)
    | some adobeLoginHost =>
      let requestUrl := adobeLoginHost ++ "/ims/token/v3"
      match net with
      | none => (.error .noResponse, some requestUrl)
      | some res =>
        if res.ok then
          (.ok (jsGet res.body "access_token"), some requestUrl)
        else
          if isInvalidClientSecretResponse res then
            (.error .credentialRejected, some requestUrl)
          else
            (.error (.exchangeFailed res.status res.statusText res.body), some requestUrl)

/-- JavaScript template-literal coercion of a value to a string (an array
joins its coerced elements with commas, a plain object prints as
`[object Object]`). -/
def jsTemplateStringCore : Json → String
  | .null => "null"
  | .bool b => if b then "true" else "false"
  | .num n => toString n
  | .str s => s
  | .arr elems => String.intercalate "," (elems.attach.map fun e => jsTemplateStringCore e.1)
  | .obj _ => "[object Object]"
decreasing_by
  have := List.sizeOf_lt_of_mem e.2
  simp_wf
  omega

/-- JavaScript template-literal coercion of a possibly-undefined value. -/
def jsTemplateString : Option Json → String
  | none => "undefined"
  | some j => jsTemplateStringCore j

/-- `extractContentProvenanceActiveManifestContents`: return the
`active_manifest` field of the metadata when the metadata and that field
are truthy, else `null`. -/
def extractContentProvenanceActiveManifestContents (c2paMetadata : Json) : Json :=
  if !jsTruthy c2paMetadata then Json.null
  else
    match jsGet c2paMetadata "active_manifest" with
    | some m => if jsTruthy m then m else Json.null
    | none => Json.null

/-- Oracle bundle for the manifest-propagation pipeline: `now` is
`Date.now()`, `writeJsonOk` is whether `fse.writeJson` succeeds, `net` is
the token-exchange transport, `exec`/`parse` drive
`executeJsonOutputCommand`, `unlinkOk` is whether `fse.unlink` succeeds. -/
structure PropEnv where
  now : Nat := 0
  writeJsonOk : Bool := true
  net : Option HttpResponse := none
  exec : String → Except Unit String := fun _ => .error ()
  parse : String → Except Unit Json := fun _ => .error ()
  unlinkOk : Bool := true

/-- `addAuthToCommand`: when `signParams` is present and
`useInternalTooling` is truthy, exchange the service token and append it
as `--adobe-auth <token>`; otherwise return the command unchanged. A
token-exchange failure propagates as a thrown error. -/
def addAuthToCommand (net : Option HttpResponse) (inC2patoolCommand : String)
    (signParams : Option SignParams) : Except TokenExchangeError String :=
  if signParams.isSome && optBoolTruthy ((signParams.getD {}).useInternalTooling) then
    match exchangeServiceTokenForSignature signParams net with
    | (.ok token, _) =>
      .ok (inC2patoolCommand ++ " --adobe-auth " ++ jsTemplateString token)
    | (.error e, _) => .error e
  else
    .ok inC2patoolCommand

/-- `addC2PAManifest`: build the c2patool command, attach auth (rethrowing
any auth failure as the fixed `Failed to add auth to C2PA command`
message), execute it, and return the parsed result only when it is truthy
and has at least one key, else `null`. -/
def addC2PAManifest (env : PropEnv) (fileToProcess jsonManifestPath : String)
    (parentAsset : Option String := none) (signParams : Option SignParams := some {}) :
    Except String Json :=
  let c2patoolCommand :=
    buildExtractionCommand fileToProcess jsonManifestPath parentAsset (signParams.getD {})
  match addAuthToCommand env.net c2patoolCommand signParams with
  | .error _ => .error "Failed to add auth to C2PA command"
  | .ok finalC2patoolCommand =>
    let jsonResult := executeJsonOutputCommand env.exec env.parse finalC2patoolCommand
    if jsTruthy jsonResult && objectKeysLength jsonResult > 0 then
      .ok jsonResult
    else
      .ok Json.null

/-- The scratch manifest path `<tmpDir>/<Date.now()>.<renditionName>.manifest.json`. -/
def scratchManifestPath (tmpDir : String) (now : Nat) (renditionName : String) : String :=
  tmpDir ++ "/" ++ toString now ++ "." ++ renditionName ++ ".manifest.json"

/-- Filesystem side effects of one propagation attempt: whether the
scratch manifest file was created, its path, and whether cleanup deleted
it again. -/
structure PropTrace where
  scratchCreated : Bool := false
  scratchPath : Option String := none
  scratchDeleted : Bool := false

/-- The `try` block body of `addAssetManifestToRendition`: extract the
active manifest, write it to the scratch file, run `addC2PAManifest`
against the rendition, then optionally clean up (unlink failures are
swallowed by the inner `catch`). An `.error` is an exception escaping the
`try` block; the trace records the side effects performed up to that
point. -/
def addAssetManifestToRenditionBody (env : PropEnv) (c2paMetadata : Json)
    (renditionPath renditionName tmpDir : String) (signParams : Option SignParams) :
    Except String Json × PropTrace :=
  let assetActiveManifestContent := extractContentProvenanceActiveManifestContents c2paMetadata
  if !jsTruthy assetActiveManifestContent then
    (.ok Json.null, {})
  else
    let assetActiveManifestPath := scratchManifestPath tmpDir env.now renditionName
    if !env.writeJsonOk then
      (.error "writeJson failed", {})
    else
      let cleanedUp :=
        signParams.isSome && (signParams.getD {}).cleanUpTmpFiles = some true && env.unlinkOk
      match addC2PAManifest env renditionPath assetActiveManifestPath none signParams with
      | .error e =>
        (.error e, { scratchCreated := true, scratchPath := some assetActiveManifestPath })
      | .ok addedManifest =>
        (.ok addedManifest,
         { scratchCreated := true, scratchPath := some assetActiveManifestPath,
           scratchDeleted := cleanedUp })

/-- `addAssetManifestToRendition`: return `null` at once on falsy
metadata; otherwise run the body and convert any exception it raises into
a `null` return (the surrounding `catch`). -/
def addAssetManifestToRendition (env : PropEnv) (c2paMetadata : Json)
    (renditionPath renditionName tmpDir : String) (signParams : Option SignParams) :
    Json × PropTrace :=
  if !jsTruthy c2paMetadata then
    (Json.null, {})
  else
    match addAssetManifestToRenditionBody env c2paMetadata renditionPath renditionName
        tmpDir signParams with
    | (.ok v, trace) => (v, trace)
    | (.error _, trace) => (Json.null, trace)

/-- Which signing backend `sign` builds: `createLocalSigner()` (file-based
certificate) or `createRemoteSigner()` (HTTP callback). -/
inductive SignerKind where
  | localSigner
  | remoteSigner
deriving DecidableEq

/-- `createRemoteSigner`: the HTTP-callback signer. -/
def createRemoteSigner : SignerKind := .remoteSigner

/-- `createLocalSigner`: the certificate-file signer (the concurrent reads
of the certificate and key files are folded into the signing oracle). -/
def createLocalSigner : SignerKind := .localSigner

/-- `sign`: select the signer from the `useLocalSigner` flag (JavaScript
default `false`) and delegate to `c2pa.sign`, modelled by the oracle
`signOutcome` (`.ok` carries the signed asset bytes, `.error` a thrown
signing failure, including a failure to load the local credentials). -/
def sign (signOutcome : Except Unit (List Nat)) (useLocalSigner : Bool := false) :
    SignerKind × Except Unit (List Nat) :=
  (if useLocalSigner then createLocalSigner else createRemoteSigner, signOutcome)

/-- `read`: delegate to `c2pa.read` (the oracle `readResult`) and coerce a
falsy result to `null` (`result || null`); a thrown read error
propagates. -/
def read (readResult : Except Unit Json) : Except Unit Json :=
  match readResult with
  | .ok result => .ok (if jsTruthy result then result else Json.null)
  | .error e => .error e

/-- The `rendition.instructions` bag, with the three fields the worker
reads. `none` models an absent (`undefined` or `null`) field. -/
structure Instructions where
  useLocalSigner : Option Bool := none
  addSourceManifest : Option Bool := none
  c2paSignParams : Option SignParams := none

/-- The `source` argument of the worker callback. -/
structure Source where
  path : String := ""
  name : Option String := none
  mimeType : Option String := none

/-- The `rendition` argument of the worker callback. -/
structure Rendition where
  path : String := ""
  name : Option String := none
  instructions : Option Instructions := none

/-- Oracle bundle for one worker invocation: the stat size and bytes of
the source file, the `c2pa.read` outcome, whether `readFile(source.path)`
in the signing block succeeds, the `c2pa.sign` outcome, whether
`fs.writeFile` and `fs.copyFile` succeed, and the propagation oracles. -/
structure WorkerEnv where
  sourceSize : Nat := 0
  sourceBytes : List Nat := []
  metadataRead : Except Unit Json := .error ()
  signReadOk : Bool := true
  signOutcome : Except Unit (List Nat) := .error ()
  writeFileOk : Bool := true
  copyFileOk : Bool := true
  propEnv : PropEnv := {}

/-- Errors that can escape `exports.main`: the `SourceCorruptError` thrown
for an empty source, or a failure of the fallback `fs.copyFile` (which no
`catch` guards). -/
inductive WorkerError where
  | sourceCorrupt
  | copyFailed
deriving DecidableEq

/-- Observable outcome of one worker invocation: whether it returned
normally or threw, the bytes left at the rendition path by the worker's
own write/copy calls, how many such successful rendition writes happened,
which signer `sign` selected (if it was reached), whether the
manifest-propagation path was entered, and the scratch-file trace. -/
structure WorkerOutcome where
  result : Except WorkerError Unit
  rendition : Option (List Nat)
  renditionWrites : Nat
  signerUsed : Option SignerKind
  propagationInvoked : Bool
  propTrace : PropTrace

/-- The metadata-read step of `exports.main`: `var sourceC2paMetadata =
await read(...)` inside `try`/`catch`, so a thrown read error leaves the
variable undefined (`none`). -/
def readSourceMetadata (env : WorkerEnv) : Option Json :=
  match read env.metadataRead with
  | .ok v => some v
  | .error _ => none

/-- The manifest definition the worker builds (`new ManifestBuilder(...)`),
as a `Json` object. -/
def manifestDefinition (source : Source) : Json :=
  Json.obj
    [("claim_generator", Json.str "htx-cai-asset-compute/1.0.0"),
     ("format", Json.str (source.mimeType.getD "image/jpeg")),
     ("title", Json.str (source.name.getD "signed-asset")),
     ("assertions", Json.arr
       [Json.obj
         [("label", Json.str "c2pa.actions"),
          ("data", Json.obj
            [("actions", Json.arr [Json.obj [("action", Json.str "c2pa.created")]])])],
        Json.obj
         [("label", Json.str "com.custom.my-assertion"),
          ("data", Json.obj
            [("description", Json.str "My custom test assertion"),
             ("version", Json.str "1.0.0")])]])]

/-- The `useLocalSigner` flag the worker computes:
`rendition.instructions?.useLocalSigner ?? true`. -/
def resolveUseLocalSigner (rendition : Rendition) : Bool :=
  ((rendition.instructions.bind Instructions.useLocalSigner).getD true)

/-- The guard of the propagation step:
`rendition.instructions?.addSourceManifest === true && sourceC2paMetadata`. -/
def propagationGate (env : WorkerEnv) (rendition : Rendition) : Bool :=
  (rendition.instructions.bind Instructions.addSourceManifest) == some true
    && (match readSourceMetadata env with
        | some m => jsTruthy m
        | none => false)

/-- The signing `try` block of `exports.main`: read the source bytes,
build the manifest, select the signer, sign, and write the signed buffer
to the rendition path. `.ok` carries the signed bytes written; `.error`
is any exception inside the block (read, sign, or write failure). The
signer kind is reported separately since selection happens only after the
source read succeeds. -/
def signStep (env : WorkerEnv) (rendition : Rendition) :
    Except Unit (List Nat) × Option SignerKind :=
  if !env.signReadOk then
    (.error (), none)
  else
    let useLocalSigner := resolveUseLocalSigner rendition
    let (signerKind, outcome) := sign env.signOutcome useLocalSigner
    match outcome with
    | .error _ => (.error (), some signerKind)
    | .ok signedBytes =>
      if env.writeFileOk then (.ok signedBytes, some signerKind)
      else (.error (), some signerKind)

/-- The propagation step of `exports.main`: when the gate holds, call
`addAssetManifestToRendition` with the rendition path and name, `/tmp`
and `rendition.instructions?.c2paSignParams || {}`; its own failures are
already swallowed, and the surrounding `catch` has nothing to catch. -/
def propagationStep (env : WorkerEnv) (rendition : Rendition) : Bool × PropTrace :=
  if propagationGate env rendition then
    let signParams := (rendition.instructions.bind Instructions.c2paSignParams).getD {}
    let metadata := (readSourceMetadata env).getD Json.null
    let (_, trace) := addAssetManifestToRendition env.propEnv metadata rendition.path
      (rendition.name.getD "rendition") "/tmp" (some signParams)
    (true, trace)
  else
    (false, {})

/-- `exports.main`: the worker callback. Throws `SourceCorruptError` on a
zero-byte source; otherwise reads metadata (best effort), runs the signing
block with fallback copy of the source on any signing failure, and then
the optional propagation step. -/
def main (env : WorkerEnv) (source : Source) (rendition : Rendition) : WorkerOutcome :=
  if env.sourceSize = 0 then
    { result := .error .sourceCorrupt, rendition := none, renditionWrites := 0,
      signerUsed := none, propagationInvoked := false, propTrace := {} }
  else
    let _sourceC2paMetadata := readSourceMetadata env
    let _manifest := manifestDefinition source
    let (signResult, signerUsed) := signStep env rendition
    match signResult with
    | .ok signedBytes =>
      let (invoked, trace) := propagationStep env rendition
      { result := .ok (), rendition := some signedBytes, renditionWrites := 1,
        signerUsed := signerUsed, propagationInvoked := invoked, propTrace := trace }
    | .error _ =>
      if env.copyFileOk then
        let (invoked, trace) := propagationStep env rendition
        { result := .ok (), rendition := some env.sourceBytes, renditionWrites := 1,
          signerUsed := signerUsed, propagationInvoked := invoked, propTrace := trace }
      else
        { result := .error .copyFailed, rendition := none, renditionWrites := 0,
          signerUsed := signerUsed, propagationInvoked := false, propTrace := {} }

/-! ## Theorems -/

/-- Claim C5: for every command string, the Command Executor returns null
(never throws) when the subprocess fails, when stdout is empty or
whitespace-only, and when the stdout is not parseable JSON; otherwise it
returns the JSON parse of the trimmed stdout. -/
theorem claim_C5_executor_swallows_failures
    (exec : String → Except Unit String) (parse : String → Except Unit Json)
    (command : String) :
    (exec command = .error () → executeJsonOutputCommand exec parse command = Json.null)
    ∧ (∀ s, exec command = .ok s → jsTrim s = "" →
        executeJsonOutputCommand exec parse command = Json.null)
    ∧ (∀ s, exec command = .ok s → parse (jsTrim s) = .error () →
        executeJsonOutputCommand exec parse command = Json.null)
    ∧ (∀ s j, exec command = .ok s → jsTrim s ≠ "" → parse (jsTrim s) = .ok j →
        executeJsonOutputCommand exec parse command = j) := by
  refine ⟨?_, ?_, ?_, ?_⟩
  · intro h
    simp [executeJsonOutputCommand, h]
  · intro s hs ht
    by_cases h0 : s = ""
    · simp [executeJsonOutputCommand, hs, h0]
    · simp [executeJsonOutputCommand, hs, h0, ht]
  · intro s hs hp
    by_cases h0 : s = ""
    · simp [executeJsonOutputCommand, hs, h0]
    · by_cases ht : jsTrim s = ""
      · simp [executeJsonOutputCommand, hs, h0, ht]
      · simp [executeJsonOutputCommand, hs, h0, ht, hp]
  · intro s j hs ht hp
    have h0 : s ≠ "" := by
      intro h
      rw [h] at ht
      exact ht rfl
    simp [executeJsonOutputCommand, hs, h0, ht, hp]

/-- Witness for C5: stdout `" 5 "` under a parser recognising `"5"`
yields the parsed number. -/
theorem claim_C5_witness :
    executeJsonOutputCommand (fun _ => .ok " 5 ")
      (fun t => if t = "5" then .ok (Json.num 5) else .error ()) "c2patool" = Json.num 5 :=
  (claim_C5_executor_swallows_failures (fun _ => .ok " 5 ")
    (fun t => if t = "5" then .ok (Json.num 5) else .error ()) "c2patool").2.2.2
    " 5 " (Json.num 5) rfl (by decide) rfl

set_option maxRecDepth 8000 in
/-- Claim C7: the Command Builder produces the matching one of four
command variants by the combination of parent-asset presence and the
internal-tooling flag: the internal CLI name with its flag set when
internal tooling is requested, the public CLI name otherwise, and a
`--parent`/`-p` argument present exactly in the with-parent variants; in
particular, with a parent asset and internal tooling the command contains
both the internal CLI name and the parent-reference flag, and the
no-parent variants (shown at a concrete input) contain no
parent-reference flag. -/
theorem claim_C7_builder_four_variants (f m p : String) (sp : SignParams) :
    (optBoolTruthy sp.useInternalTooling = true →
      buildExtractionCommand f m (some p) sp
        = "adobe_c2patool add-manifest --input \"" ++ f ++ "\" --embed --config \""
            ++ m ++ "\" --force --output \"" ++ f ++ "\" --parent \"" ++ p ++ "\""
      ∧ (∃ a b, buildExtractionCommand f m (some p) sp = a ++ " --parent \"" ++ b)
      ∧ (∃ c, buildExtractionCommand f m (some p) sp = "adobe_c2patool add-manifest " ++ c))
    ∧ (optBoolTruthy sp.useInternalTooling = false →
      buildExtractionCommand f m (some p) sp
        = "c2patool \"" ++ f ++ "\" --manifest \"" ++ m ++ "\" -f -o \"" ++ f
            ++ "\" -p \"" ++ p ++ "\""
      ∧ (∃ a b, buildExtractionCommand f m (some p) sp = a ++ " -p \"" ++ b)
      ∧ (∃ c, buildExtractionCommand f m (some p) sp = "c2patool " ++ c))
    ∧ (optBoolTruthy sp.useInternalTooling = true →
      buildExtractionCommand f m none sp
        = "adobe_c2patool add-manifest --input \"" ++ f ++ "\" --embed --config \""
            ++ m ++ "\" --force --output \"" ++ f ++ "\"")
    ∧ (optBoolTruthy sp.useInternalTooling = false →
      buildExtractionCommand f m none sp
        = "c2patool \"" ++ f ++ "\" --manifest \"" ++ m ++ "\" -f -o \"" ++ f ++ "\"")
    ∧ ¬ ((" --parent \"").data <:+:
        (buildExtractionCommand "/in.jpg" "/m.json" none { useInternalTooling := some true }).data)
    ∧ ¬ ((" -p \"").data <:+:
        (buildExtractionCommand "/in.jpg" "/m.json" none {}).data) := by
  refine ⟨?_, ?_, ?_, ?_, by decide, by decide⟩
  · intro h
    refine ⟨by simp [buildExtractionCommand, h], ?_, ?_⟩
    · refine ⟨"adobe_c2patool add-manifest --input \"" ++ f ++ "\" --embed --config \""
        ++ m ++ "\" --force --output \"" ++ f ++ "\"", p ++ "\"", ?_⟩
      simp [buildExtractionCommand, h, String.append_assoc]
    · refine ⟨"--input \"" ++ f ++ "\" --embed --config \""
        ++ m ++ "\" --force --output \"" ++ f ++ "\" --parent \"" ++ p ++ "\"", ?_⟩
      simp [buildExtractionCommand, h, String.append_assoc]
      rw [show ("adobe_c2patool add-manifest --input \"" : String)
            = "adobe_c2patool add-manifest " ++ "--input \"" from rfl]
      rw [String.append_assoc]
  · intro h
    refine ⟨by simp [buildExtractionCommand, h], ?_, ?_⟩
    · refine ⟨"c2patool \"" ++ f ++ "\" --manifest \"" ++ m ++ "\" -f -o \"" ++ f ++ "\"",
        p ++ "\"", ?_⟩
      simp [buildExtractionCommand, h, String.append_assoc]
    · refine ⟨"\"" ++ f ++ "\" --manifest \"" ++ m ++ "\" -f -o \"" ++ f
        ++ "\" -p \"" ++ p ++ "\"", ?_⟩
      simp [buildExtractionCommand, h, String.append_assoc]
      rw [show ("c2patool \"" : String) = "c2patool " ++ "\"" from rfl]
      rw [String.append_assoc]
  · intro h
    simp [buildExtractionCommand, h]
  · intro h
    simp [buildExtractionCommand, h]

/-- Witness for C7: the four variants at concrete paths. -/
theorem claim_C7_witness :
    buildExtractionCommand "/in.jpg" "/m.json" (some "/par.jpg") { useInternalTooling := some true }
      = "adobe_c2patool add-manifest --input \"/in.jpg\" --embed --config \"/m.json\""
          ++ " --force --output \"/in.jpg\" --parent \"/par.jpg\""
    ∧ buildExtractionCommand "/in.jpg" "/m.json" (some "/par.jpg") {}
      = "c2patool \"/in.jpg\" --manifest \"/m.json\" -f -o \"/in.jpg\" -p \"/par.jpg\""
    ∧ buildExtractionCommand "/in.jpg" "/m.json" none { useInternalTooling := some true }
      = "adobe_c2patool add-manifest --input \"/in.jpg\" --embed --config \"/m.json\""
          ++ " --force --output \"/in.jpg\""
    ∧ buildExtractionCommand "/in.jpg" "/m.json" none {}
      = "c2patool \"/in.jpg\" --manifest \"/m.json\" -f -o \"/in.jpg\"" := by
  have h := claim_C7_builder_four_variants "/in.jpg" "/m.json" "/par.jpg"
  refine ⟨?_, ?_, ?_, ?_⟩
  · rw [(h { useInternalTooling := some true }).1 rfl |>.1]
    decide
  · rw [(h {}).2.1 rfl |>.1]
    decide
  · rw [(h { useInternalTooling := some true }).2.2.1 rfl]
    decide
  · rw [(h {}).2.2.2.1 rfl]
    decide

/-- Claim C8: the token exchange fails before any network request when a
required field (clientSecret, accessCode, tier) is missing, or when the
tier is neither STAGE nor PROD case-insensitively; the HTTP POST to the
identity endpoint happens only after these validations pass. -/
theorem claim_C8_validation_before_network (sp : Option SignParams)
    (net : Option HttpResponse) :
    (signParamsComplete sp = false →
      exchangeServiceTokenForSignature sp net = (.error .incompleteInfo, none))
    ∧ (∀ p t, sp = some p → p.tier = some t → signParamsComplete sp = true →
        jsToUpperCase t ≠ STAGE_TIER → jsToUpperCase t ≠ PROD_TIER →
        exchangeServiceTokenForSignature sp net = (.error (.invalidTier t), none))
    ∧ (∀ u, (exchangeServiceTokenForSignature sp net).2 = some u →
        signParamsComplete sp = true
          ∧ ∃ host, resolveTierHost ((sp.getD {}).tier.getD "") = some host
              ∧ u = host ++ "/ims/token/v3") := by
  refine ⟨?_, ?_, ?_⟩
  · intro h
    simp [exchangeServiceTokenForSignature, h]
  · intro p t hp ht hc h1 h2
    subst hp
    have hnone : resolveTierHost t = none := by
      simp only [resolveTierHost]
      rw [if_neg h2, if_neg h1]
    simp [exchangeServiceTokenForSignature, hc, ht, hnone]
  · intro u hu
    by_cases hc : signParamsComplete sp
    · rcases hr : resolveTierHost ((sp.getD {}).tier.getD "") with _ | host
      · simp [exchangeServiceTokenForSignature, hc, hr] at hu
      · refine ⟨hc, host, by simp [hr], ?_⟩
        rcases net with _ | r
        · simp [exchangeServiceTokenForSignature, hc, hr] at hu
          exact hu.symm
        · by_cases ho : r.ok
          · simp [exchangeServiceTokenForSignature, hc, hr, ho] at hu
            exact hu.symm
          · by_cases hic : isInvalidClientSecretResponse r
            · simp [exchangeServiceTokenForSignature, hc, hr, ho, hic] at hu
              exact hu.symm
            · simp [exchangeServiceTokenForSignature, hc, hr, ho, hic] at hu
              exact hu.symm
    · simp [exchangeServiceTokenForSignature, hc] at hu

/-- Witness for C8: tier `DEV` with both credentials present fails with
the invalid-tier error and no network call. -/
theorem claim_C8_witness :
    exchangeServiceTokenForSignature
      (some { clientSecret := some "s", accessCode := some "c", tier := some "DEV" }) none
      = (.error (.invalidTier "DEV"), none) :=
  (claim_C8_validation_before_network
      (some { clientSecret := some "s", accessCode := some "c", tier := some "DEV" }) none).2.1
    { clientSecret := some "s", accessCode := some "c", tier := some "DEV" } "DEV"
    rfl rfl rfl (by decide) (by decide)

/-- The boolean `isInvalidClientSecretResponse` holds exactly on a 400
response whose JSON body is truthy with error `invalid_client` and the
specific error description. -/
theorem isInvalidClientSecretResponse_iff (r : HttpResponse) :
    isInvalidClientSecretResponse r = true ↔
      (r.status = 400 ∧ jsTruthy r.body = true
        ∧ jsGet r.body "error" = some (Json.str "invalid_client")
        ∧ jsGet r.body "error_description"
            = some (Json.str "invalid client_secret parameter")) := by
  unfold isInvalidClientSecretResponse
  rcases hg : jsGet r.body "error" with _ | j
  · simp [hg]
  · rcases hd : jsGet r.body "error_description" with _ | j2
    · cases j <;> simp [hg, hd]
    · cases j <;> cases j2 <;> simp [hg, hd, and_assoc]

/-- Claim C9: a non-success token-exchange response with HTTP status 400
and JSON body `error: invalid_client`, `error_description: "invalid
client_secret parameter"` fails with the distinguished credential-rejected
error (whose message identifies that case); every other non-success
response fails with the generic error carrying the status, status text and
response body. -/
theorem claim_C9_http_error_taxonomy (sp : Option SignParams) (r : HttpResponse)
    (hc : signParamsComplete sp = true) (host : String)
    (hh : resolveTierHost ((sp.getD {}).tier.getD "") = some host)
    (hok : r.ok = false) :
    ((r.status = 400 ∧ jsTruthy r.body = true
        ∧ jsGet r.body "error" = some (Json.str "invalid_client")
        ∧ jsGet r.body "error_description"
            = some (Json.str "invalid client_secret parameter")) →
      (exchangeServiceTokenForSignature sp (some r)).1
          = .error .credentialRejected
        ∧ tokenExchangeErrorMessage TokenExchangeError.credentialRejected
            = "Unable to exchange service token, client_secret rejected")
    ∧ (isInvalidClientSecretResponse r = false →
        (exchangeServiceTokenForSignature sp (some r)).1
          = .error (.exchangeFailed r.status r.statusText r.body)) := by
  constructor
  · intro h
    have hic : isInvalidClientSecretResponse r = true :=
      (isInvalidClientSecretResponse_iff r).2 h
    constructor
    · simp [exchangeServiceTokenForSignature, hc, hh, hok, hic]
    · rfl
  · intro hic
    simp [exchangeServiceTokenForSignature, hc, hh, hok, hic]

/-- Witness for C9: a concrete 400 invalid-client response is rejected
with the distinguished error. -/
theorem claim_C9_witness :
    (exchangeServiceTokenForSignature
      (some { clientSecret := some "s", accessCode := some "c", tier := some "prod" })
      (some { ok := false, status := 400, statusText := "Bad Request",
              body := Json.obj [("error", Json.str "invalid_client"),
                ("error_description", Json.str "invalid client_secret parameter")] })).1
      = .error .credentialRejected :=
  ((claim_C9_http_error_taxonomy
      (some { clientSecret := some "s", accessCode := some "c", tier := some "prod" })
      { ok := false, status := 400, statusText := "Bad Request",
        body := Json.obj [("error", Json.str "invalid_client"),
          ("error_description", Json.str "invalid client_secret parameter")] }
      rfl AUTH_PROD_ENDPOINT (by decide) rfl).1 ⟨rfl, rfl, rfl, rfl⟩).1

/-- Claim C10: the add-manifest operation returns null not only when the
CLI produced no or invalid output (a falsy parsed result) but also when
the parsed JSON object has zero keys; a result is handed back to the
caller only when the parsed value is truthy with at least one key, and is
then that parsed value. -/
theorem claim_C10_empty_object_yields_null (env : PropEnv) (f m : String)
    (pa : Option String) (sp : Option SignParams) (finalCmd : String)
    (hauth : addAuthToCommand env.net (buildExtractionCommand f m pa (sp.getD {})) sp
      = .ok finalCmd) :
    ((jsTruthy (executeJsonOutputCommand env.exec env.parse finalCmd) = false
        ∨ objectKeysLength (executeJsonOutputCommand env.exec env.parse finalCmd) = 0) →
      addC2PAManifest env f m pa sp = .ok Json.null)
    ∧ (∀ j, addC2PAManifest env f m pa sp = .ok j → j ≠ Json.null →
        jsTruthy j = true ∧ 0 < objectKeysLength j
          ∧ j = executeJsonOutputCommand env.exec env.parse finalCmd) := by
  constructor
  · intro h
    simp only [addC2PAManifest]
    rw [hauth]
    rcases h with h | h
    · simp [h]
    · simp [h]
  · intro j hj hne
    simp only [addC2PAManifest] at hj
    rw [hauth] at hj
    by_cases ht : jsTruthy (executeJsonOutputCommand env.exec env.parse finalCmd) = true
    · by_cases hk : 0 < objectKeysLength (executeJsonOutputCommand env.exec env.parse finalCmd)
      · simp [ht, hk] at hj
        exact ⟨hj ▸ ht, hj ▸ hk, hj.symm⟩
      · simp [ht, hk] at hj
        exact absurd hj.symm hne
    · simp [ht] at hj
      exact absurd hj.symm hne

/-- Witness for C10: CLI stdout parsing to the empty object yields a null
result. -/
theorem claim_C10_witness :
    addC2PAManifest { exec := fun _ => .ok "x", parse := fun _ => .ok (Json.obj []) }
      "/r.jpg" "/t.json" none (some {}) = .ok Json.null :=
  (claim_C10_empty_object_yields_null
      { exec := fun _ => .ok "x", parse := fun _ => .ok (Json.obj []) }
      "/r.jpg" "/t.json" none (some {})
      (buildExtractionCommand "/r.jpg" "/t.json" none {}) rfl).1 (.inr rfl)

/-- If the signing block succeeds with `bytes`, the signing oracle
produced exactly those bytes (and the read and write both succeeded). -/
theorem signStep_fst_ok (env : WorkerEnv) (rend : Rendition) (bytes : List Nat)
    (h : (signStep env rend).1 = .ok bytes) : env.signOutcome = .ok bytes := by
  unfold signStep at h
  by_cases hr : env.signReadOk
  · rcases ho : env.signOutcome with e | b
    · simp [hr, sign, ho] at h
    · by_cases hw : env.writeFileOk
      · simp [hr, sign, ho, hw] at h
        subst h
        rfl
      · simp [hr, sign, ho, hw] at h
  · simp [hr] at h

/-- Claim C3: a zero-byte source makes the worker throw the
`SourceCorruptError` before any other processing: the invocation aborts,
no rendition is written, and no propagation or scratch file happens. -/
theorem claim_C3_zero_byte_source (env : WorkerEnv) (source : Source)
    (rendition : Rendition) (h : env.sourceSize = 0) :
    (main env source rendition).result = .error .sourceCorrupt
    ∧ (main env source rendition).rendition = none
    ∧ (main env source rendition).renditionWrites = 0
    ∧ (main env source rendition).propagationInvoked = false
    ∧ (main env source rendition).propTrace.scratchCreated = false := by
  simp [main, h]

/-- Witness for C3: the empty-source invocation at a concrete
environment. -/
theorem claim_C3_witness :
    (main { sourceSize := 0 } {} {}).result = .error .sourceCorrupt
    ∧ (main { sourceSize := 0 } {} {}).rendition = none
    ∧ (main { sourceSize := 0 } {} {}).renditionWrites = 0
    ∧ (main { sourceSize := 0 } {} {}).propagationInvoked = false
    ∧ (main { sourceSize := 0 } {} {}).propTrace.scratchCreated = false :=
  claim_C3_zero_byte_source { sourceSize := 0 } {} {} rfl

/-- Claim C1: on a non-empty source, whenever the worker completes
normally it has written the rendition exactly once — either the signed
asset buffer or an unmodified copy of the source — so a valid output
exists at the rendition path. -/
theorem claim_C1_rendition_written_once (env : WorkerEnv) (source : Source)
    (rendition : Rendition) (hsz : env.sourceSize ≠ 0)
    (hok : (main env source rendition).result = .ok ()) :
    (main env source rendition).renditionWrites = 1
    ∧ ((∃ b, env.signOutcome = .ok b ∧ (main env source rendition).rendition = some b)
        ∨ (main env source rendition).rendition = some env.sourceBytes) := by
  rcases hs : signStep env rendition with ⟨r, k⟩
  rcases r with e | bytes
  · by_cases hcopy : env.copyFileOk
    · refine ⟨?_, .inr ?_⟩ <;> simp [main, hsz, hs, hcopy]
    · exfalso
      simp [main, hsz, hs, hcopy] at hok
  · have hbytes : env.signOutcome = .ok bytes :=
      signStep_fst_ok env rendition bytes (by rw [hs])
    refine ⟨?_, .inl ⟨bytes, hbytes, ?_⟩⟩ <;> simp [main, hsz, hs]

/-- Witness for C1: a successful signing run writes once. -/
theorem claim_C1_witness :
    (main { sourceSize := 3, sourceBytes := [1, 2, 3], signOutcome := Except.ok [9] }
      {} {}).renditionWrites = 1 :=
  (claim_C1_rendition_written_once
    { sourceSize := 3, sourceBytes := [1, 2, 3], signOutcome := Except.ok [9] } {} {}
    (by decide) rfl).1

/-- Claim C2: whenever the signing block throws (for any reason) and the
worker completes normally, the bytes left at the rendition path are
exactly the source bytes. -/
theorem claim_C2_fallback_copies_source_bytes (env : WorkerEnv) (source : Source)
    (rendition : Rendition) (hsz : env.sourceSize ≠ 0)
    (hthrow : (signStep env rendition).1 = .error ())
    (hok : (main env source rendition).result = .ok ()) :
    (main env source rendition).rendition = some env.sourceBytes := by
  rcases hs : signStep env rendition with ⟨r, k⟩
  rw [hs] at hthrow
  simp at hthrow
  subst hthrow
  by_cases hcopy : env.copyFileOk
  · simp [main, hsz, hs, hcopy]
  · exfalso
    simp [main, hsz, hs, hcopy] at hok

/-- Witness for C2: a failing signer falls back to the source bytes. -/
theorem claim_C2_witness :
    (main { sourceSize := 2, sourceBytes := [5, 6] } {} {}).rendition = some [5, 6] :=
  claim_C2_fallback_copies_source_bytes { sourceSize := 2, sourceBytes := [5, 6] } {} {}
    (by decide) rfl rfl

/-- Claim C4: manifest propagation is strictly gated and best-effort —
the propagation path is never entered and no scratch manifest file is
created unless `addSourceManifest === true` and the metadata read
produced a value, and inside the propagator any exception raised by the
body is caught and converted into a null return, so propagation never
aborts the invocation. -/
theorem claim_C4_propagation_gated_and_total :
    (∀ (env : WorkerEnv) (source : Source) (rendition : Rendition),
      propagationGate env rendition = false →
        (main env source rendition).propagationInvoked = false
        ∧ (main env source rendition).propTrace.scratchCreated = false)
    ∧ (∀ (penv : PropEnv) (meta : Json) (renditionPath renditionName tmpDir : String)
        (sp : Option SignParams) (e : String),
        (addAssetManifestToRenditionBody penv meta renditionPath renditionName
          tmpDir sp).1 = .error e →
        (addAssetManifestToRendition penv meta renditionPath renditionName
          tmpDir sp).1 = Json.null) := by
  constructor
  · intro env source rendition hgate
    by_cases hsz : env.sourceSize = 0
    · simp [main, hsz]
    · rcases hs : signStep env rendition with ⟨r, k⟩
      rcases r with e | bytes
      · by_cases hcopy : env.copyFileOk
        · simp [main, hsz, hs, hcopy, propagationStep, hgate]
        · simp [main, hsz, hs, hcopy]
      · simp [main, hsz, hs, propagationStep, hgate]
  · intro penv meta rp rn td sp e herr
    unfold addAssetManifestToRendition
    by_cases ht : jsTruthy meta
    · rcases hb : addAssetManifestToRenditionBody penv meta rp rn td sp with ⟨res, tr⟩
      rw [hb] at herr
      simp at herr
      subst herr
      simp [ht, hb]
    · simp [ht]

/-- Witness for C4: a default invocation never enters propagation, and a
failing scratch-file write inside the propagator still returns null. -/
theorem claim_C4_witness :
    (main {} {} {}).propagationInvoked = false
    ∧ (addAssetManifestToRendition { writeJsonOk := false }
        (Json.obj [("active_manifest", Json.obj [("k", Json.num 1)])])
        "/r" "n" "/tmp" none).1 = Json.null :=
  ⟨(claim_C4_propagation_gated_and_total.1 {} {} {} rfl).1,
   claim_C4_propagation_gated_and_total.2 { writeJsonOk := false }
     (Json.obj [("active_manifest", Json.obj [("k", Json.num 1)])])
     "/r" "n" "/tmp" none "writeJson failed" rfl⟩

/-- The signer the worker records is exactly the one the signing block
selected (the early-abort branches do not change it). -/
theorem main_signerUsed_eq (env : WorkerEnv) (source : Source) (rendition : Rendition)
    (hsz : env.sourceSize ≠ 0) :
    (main env source rendition).signerUsed = (signStep env rendition).2 := by
  rcases hs : signStep env rendition with ⟨r, k⟩
  rcases r with e | bytes
  · by_cases hcopy : env.copyFileOk <;> simp [main, hsz, hs, hcopy]
  · simp [main, hsz, hs]

/-- Once the source read succeeds, the signing block selects the signer
from the resolved `useLocalSigner` flag, whatever the later outcome. -/
theorem signStep_snd (env : WorkerEnv) (rend : Rendition) (hr : env.signReadOk = true) :
    (signStep env rend).2
      = some (if resolveUseLocalSigner rend then SignerKind.localSigner
              else SignerKind.remoteSigner) := by
  unfold signStep
  rcases ho : env.signOutcome with e | b
  · simp [hr, sign, ho, createLocalSigner, createRemoteSigner]
  · by_cases hw : env.writeFileOk <;>
      simp [hr, sign, ho, hw, createLocalSigner, createRemoteSigner]

/-- Claim C6: an omitted (undefined or null) `useLocalSigner` instruction
selects the local signer, and the remote signer is selected only when the
instruction is explicitly false. -/
theorem claim_C6_local_signer_default (env : WorkerEnv) (source : Source)
    (rendition : Rendition) (hsz : env.sourceSize ≠ 0) (hread : env.signReadOk = true) :
    ((rendition.instructions.bind Instructions.useLocalSigner) = none →
      (main env source rendition).signerUsed = some SignerKind.localSigner)
    ∧ ((main env source rendition).signerUsed = some SignerKind.remoteSigner →
      (rendition.instructions.bind Instructions.useLocalSigner) = some false) := by
  have h1 := main_signerUsed_eq env source rendition hsz
  have h2 := signStep_snd env rendition hread
  constructor
  · intro hnone
    rw [h1, h2]
    simp [resolveUseLocalSigner, hnone]
  · intro hrem
    rw [h1, h2] at hrem
    rcases hb : rendition.instructions.bind Instructions.useLocalSigner with _ | b
    · simp [resolveUseLocalSigner, hb] at hrem
    · cases b
      · rfl
      · simp [resolveUseLocalSigner, hb] at hrem

/-- Witness for C6: with no instructions at all, the local signer is
used. -/
theorem claim_C6_witness :
    (main { sourceSize := 1 } {} {}).signerUsed = some SignerKind.localSigner :=
  (claim_C6_local_signer_default { sourceSize := 1 } {} {} (by decide) rfl).1 rfl

end HtxCai
